import Mathlib

/-!
# picowota TCP server: a shallow embedding of `src/main.c`

The C program is a single-connection TCP server written against the lwIP raw
API.  Every function of `main.c` becomes a pure function on the server state
`TCP_SERVER_T`.  Calls into the transport (lwIP) and into `printf` are recorded,
in program order, in a trace of `Cmd`s; the values the transport returns are
inputs of the functions, so every theorem quantifies over them.
-/

namespace Picowota

/-! ## Constants -/

/-- A transport endpoint (`struct tcp_pcb *`), identified by a number.
`Option Pcb` is the nullable pointer, `none` being `NULL`. -/
abbrev Pcb := Nat

/-- The lwIP code `ERR_OK` of `lwip/err.h`. -/
def ERR_OK : Int := 0

/-- The lwIP code `ERR_VAL` of `lwip/err.h`. -/
def ERR_VAL : Int := -6

/-- The lwIP code `ERR_ABRT` of `lwip/err.h`. -/
def ERR_ABRT : Int := -13

/-- `#define TCP_PORT 4242`. -/
def TCP_PORT : Nat := 4242

/-- `#define BUF_SIZE 2048`. -/
def BUF_SIZE : Nat := 2048

/-- `#define POLL_TIME_S 5`. -/
def POLL_TIME_S : Nat := 5

/-- The lwIP flag `TCP_WRITE_FLAG_COPY` of `lwip/tcp.h`. -/
def TCP_WRITE_FLAG_COPY : Nat := 1

/-- The bytes of the string literal `"hello\n"`, without its terminator. -/
def hello : List Nat := [104, 101, 108, 108, 111, 10]

/-- The C library `strlen` on a literal given by its bytes. -/
def strlen (s : List Nat) : Nat := (s.takeWhile (fun b => b != 0)).length

/-! ## Data model -/

/-- A received payload (`struct pbuf *`, non-NULL): its identity and the bytes
of the whole chain.  `tot_len` is the length of the chain. -/
structure Pbuf where
  id : Nat
  payload : List Nat
  deriving DecidableEq, Repr

/-- The field `p->tot_len`. -/
def Pbuf.tot_len (p : Pbuf) : Nat := p.payload.length

/-- The second argument of `tcp_arg`: `NULL` or the server state. -/
inductive Arg where
  | NULL
  | state
  deriving DecidableEq, Repr

/-- A function pointer handed to the transport: `NULL` or one of the callbacks
of `main.c`. -/
inductive Callback where
  | NULL
  | tcp_server_sent
  | tcp_server_recv
  | tcp_server_poll
  | tcp_server_err
  | tcp_server_accept
  deriving DecidableEq, Repr

/-- The lines written by `DEBUG_printf` and `printf`, one constructor for each
format string of `main.c`, with the values of its arguments. -/
inductive LogLine where
  | failed_to_allocate_state
  | close_failed (err : Int)
  | completed_normally
  | error (status : Int)
  | tcp_server_sent (len : Nat)
  | sending_done
  | writing_to_client
  | failed_to_write (err : Int)
  | tcp_server_recv (tot_len : Nat) (err : Int)
  | text (bytes : List Nat)
  | tcp_server_poll_fn
  | tcp_client_err_fn (err : Int)
  | tcp_client_err_fn_abort (err : Int)
  | failure_in_accept
  | client_connected
  | starting_server (port : Nat)
  | failed_to_create_pcb
  | failed_to_bind
  | failed_to_listen
  deriving DecidableEq, Repr

/-- One call out of the server, with the value the callee returned where the
program reads it. -/
inductive Cmd where
  | printf (line : LogLine)
  | tcp_arg (pcb : Pcb) (arg : Arg)
  | tcp_poll (pcb : Pcb) (cb : Callback) (interval : Nat)
  | tcp_sent (pcb : Pcb) (cb : Callback)
  | tcp_recv (pcb : Pcb) (cb : Callback)
  | tcp_err (pcb : Pcb) (cb : Callback)
  | tcp_accept (pcb : Pcb) (cb : Callback)
  | tcp_write (pcb : Pcb) (data : List Nat) (len : Nat) (apiflags : Nat) (ret : Int)
  | tcp_recved (pcb : Pcb) (len : Nat)
  | tcp_close (pcb : Pcb) (ret : Int)
  | tcp_abort (pcb : Pcb)
  | tcp_new_ip_type (ret : Option Pcb)
  | tcp_bind (pcb : Pcb) (port : Nat) (ret : Int)
  | tcp_listen_with_backlog (pcb : Pcb) (backlog : Nat) (ret : Option Pcb)
  | cyw43_arch_lwip_check
  | pbuf_copy_partial (p : Nat) (len : Nat) (offset : Nat)
  | pbuf_free (p : Nat)
  deriving DecidableEq, Repr

/-- The struct `TCP_SERVER_T`. -/
structure TCP_SERVER_T where
  server_pcb : Option Pcb
  client_pcb : Option Pcb
  complete : Bool
  buffer_recv : List Nat
  sent_len : Int
  deriving DecidableEq, Repr

/-- What one call of a server function yields: the state it leaves, the calls
it made, the value it returned, and whether it stored outside `buffer_recv`
(what such a store hits past the array is not part of the state). -/
structure Res where
  state : TCP_SERVER_T
  trace : List Cmd
  ret : Int
  oob : Bool
  deriving DecidableEq, Repr

/-- The values returned by the two `tcp_close` calls of `tcp_server_close`. -/
structure CloseRets where
  client : Int
  server : Int
  deriving DecidableEq, Repr

/-! ## Memory and library primitives -/

/-- Two's complement wrap of a 32-bit `int`, as the target computes `+=`. -/
def wrap32 (x : Int) : Int := (x + 2147483648) % 4294967296 - 2147483648

/-- Conversion of an `int` to the 32-bit `size_t` it is compared with. -/
def to_size_t (x : Int) : Nat := (x % 4294967296).toNat

/-- The bytes lwIP's `pbuf_copy_partial(p, dst, len, offset)` copies: at most
`len` bytes of the chain, starting at `offset`. -/
def pbuf_copy_partial (p : Pbuf) (len offset : Nat) : List Nat :=
  (p.payload.drop offset).take len

/-- Store `bytes` into the array `buf` from index `i` on; `none` when a byte
falls outside the array. -/
def store_bytes (buf : List Nat) (i : Nat) (bytes : List Nat) : Option (List Nat) :=
  if i + bytes.length ≤ buf.length then
    some (buf.take i ++ bytes ++ buf.drop (i + bytes.length))
  else none

/-- The assignment `buf[i] = v`; `none` when `i` is outside the array. -/
def store_byte (buf : List Nat) (i : Nat) (v : Nat) : Option (List Nat) :=
  if i < buf.length then some (buf.set i v) else none

/-- The bytes `printf("%s", buf)` prints: those before the first zero byte. -/
def c_string (buf : List Nat) : List Nat := buf.takeWhile (fun b => b != 0)

/-! ## The functions of `main.c` -/

/-- The struct `calloc(1, sizeof(TCP_SERVER_T))` yields: every field zero. -/
def zeroed : TCP_SERVER_T :=
  { server_pcb := none, client_pcb := none, complete := false,
    buffer_recv := List.replicate BUF_SIZE 0, sent_len := 0 }

/-- The function `tcp_server_init`: `calloc` either fails or yields a zeroed struct. -/
def tcp_server_init (alloc_ok : Bool) : Option TCP_SERVER_T × List Cmd :=
  if alloc_ok then (some zeroed, [])
  else (none, [Cmd.printf LogLine.failed_to_allocate_state])

/-- The function `tcp_server_close`. -/
def tcp_server_close (state : TCP_SERVER_T) (rc : CloseRets) : Res :=
  let r1 : TCP_SERVER_T × List Cmd × Int :=
    match state.client_pcb with
    | some c =>
      let t := [Cmd.tcp_arg c Arg.NULL, Cmd.tcp_poll c Callback.NULL 0,
                Cmd.tcp_sent c Callback.NULL, Cmd.tcp_recv c Callback.NULL,
                Cmd.tcp_err c Callback.NULL, Cmd.tcp_close c rc.client]
      if rc.client ≠ ERR_OK then
        ({ state with client_pcb := none },
         t ++ [Cmd.printf (LogLine.close_failed rc.client), Cmd.tcp_abort c], ERR_ABRT)
      else ({ state with client_pcb := none }, t, rc.client)
    | none => (state, [], ERR_OK)
  match r1.1.server_pcb with
  | some l =>
    { state := { r1.1 with server_pcb := none },
      trace := r1.2.1 ++ [Cmd.tcp_arg l Arg.NULL, Cmd.tcp_close l rc.server],
      ret := r1.2.2, oob := false }
  | none => { state := r1.1, trace := r1.2.1, ret := r1.2.2, oob := false }

/-- The function `tcp_server_result`. -/
def tcp_server_result (state : TCP_SERVER_T) (status : Int) (rc : CloseRets) : Res :=
  let line := if status = 0 then LogLine.completed_normally else LogLine.error status
  let r := tcp_server_close { state with complete := true } rc
  { r with trace := Cmd.printf line :: r.trace }

/-- The function `tcp_server_sent`; `len` is a `u16_t`. -/
def tcp_server_sent (state : TCP_SERVER_T) (_tpcb : Pcb) (len : Nat) : Res :=
  let s := { state with sent_len := wrap32 (state.sent_len + len) }
  { state := s,
    trace := Cmd.printf (LogLine.tcp_server_sent len) ::
      (if to_size_t s.sent_len ≥ strlen hello then [Cmd.printf LogLine.sending_done] else []),
    ret := ERR_OK, oob := false }

/-- The function `tcp_server_send_data`; `write_ret` is what `tcp_write` returns. -/
def tcp_server_send_data (state : TCP_SERVER_T) (tpcb : Pcb) (write_ret : Int)
    (rc : CloseRets) : Res :=
  let s := { state with sent_len := 0 }
  let t := [Cmd.printf LogLine.writing_to_client, Cmd.cyw43_arch_lwip_check,
            Cmd.tcp_write tpcb hello (strlen hello) TCP_WRITE_FLAG_COPY write_ret]
  if write_ret ≠ ERR_OK then
    let r := tcp_server_result s (-1) rc
    { r with trace := t ++ Cmd.printf (LogLine.failed_to_write write_ret) :: r.trace }
  else { state := s, trace := t, ret := ERR_OK, oob := false }

/-- The function `tcp_server_recv`.  When the copy or the store of the
terminator leaves `buffer_recv`, the call goes on as the C code does (`printf`,
`tcp_recved`, `pbuf_free`, `return ERR_OK`) and the result is flagged `oob`:
`printf` reads the copied bytes and the terminator where they were stored,
`buffer_recv` holds those of them that fell inside the array, and the bytes
stored past its end, on whatever follows the array in memory, are not part of
the modelled state. -/
def tcp_server_recv (state : TCP_SERVER_T) (tpcb : Pcb) (p : Option Pbuf) (err : Int)
    (rc : CloseRets) : Res :=
  match p with
  | none => tcp_server_result state 0 rc
  | some p =>
    if p.tot_len > 0 then
      let t := [Cmd.cyw43_arch_lwip_check, Cmd.printf (LogLine.tcp_server_recv p.tot_len err),
                Cmd.pbuf_copy_partial p.id p.tot_len 0]
      match (store_bytes state.buffer_recv 0 ( pbuf_copy_partial p p.tot_len 0)).bind
              (fun b => store_byte b p.tot_len 0) with
      | some buf =>
        { state := { state with buffer_recv := buf },
          trace := t ++ [Cmd.printf (LogLine.text (c_string buf)),
                         Cmd.tcp_recved tpcb p.tot_len, Cmd.pbuf_free p.id],
          ret := ERR_OK, oob := false }
      | none =>
        { state := { state with
            buffer_recv :=
              (( pbuf_copy_partial p p.tot_len 0) ++ [0]).take state.buffer_recv.length },
          trace := t ++ [Cmd.printf (LogLine.text
                           (c_string (( pbuf_copy_partial p p.tot_len 0) ++ [0]))),
                         Cmd.tcp_recved tpcb p.tot_len, Cmd.pbuf_free p.id],
          ret := ERR_OK, oob := true }
    else
      { state := state, trace := [Cmd.cyw43_arch_lwip_check, Cmd.pbuf_free p.id],
        ret := ERR_OK, oob := false }

/-- The function `tcp_server_poll`. -/
def tcp_server_poll (state : TCP_SERVER_T) (_tpcb : Pcb) : Res :=
  { state := state, trace := [Cmd.printf LogLine.tcp_server_poll_fn], ret := ERR_OK,
    oob := false }

/-- The function `tcp_server_err`; it returns `void`, the `ret` of the result is
the value of the inner `tcp_server_result`, which the C code drops. -/
def tcp_server_err (state : TCP_SERVER_T) (err : Int) (rc : CloseRets) : Res :=
  if err ≠ ERR_ABRT then
    let r := tcp_server_result state err rc
    { r with trace := Cmd.printf (LogLine.tcp_client_err_fn err) :: r.trace }
  else
    let r := tcp_server_result state err rc
    { r with trace := Cmd.printf (LogLine.tcp_client_err_fn_abort err) :: r.trace }

/-- The function `tcp_server_accept`; `accept_failure` is the body of its first
`if`, taken when `err != ERR_OK || client_pcb == NULL`. -/
def tcp_server_accept (state : TCP_SERVER_T) (client_pcb : Option Pcb) (err : Int)
    (write_ret : Int) (rc : CloseRets) : Res :=
  let accept_failure : Res :=
    let r := tcp_server_result state err rc
    { r with trace := Cmd.printf LogLine.failure_in_accept :: r.trace, ret := ERR_VAL }
  match client_pcb with
  | none => accept_failure
  | some c =>
    if err ≠ ERR_OK then accept_failure
    else
      let s := { state with client_pcb := some c }
      let r := tcp_server_send_data s c write_ret rc
      { r with trace :=
          [Cmd.printf LogLine.client_connected, Cmd.tcp_arg c Arg.state,
           Cmd.tcp_sent c Callback.tcp_server_sent, Cmd.tcp_recv c Callback.tcp_server_recv,
           Cmd.tcp_poll c Callback.tcp_server_poll (POLL_TIME_S * 2),
           Cmd.tcp_err c Callback.tcp_server_err] ++ r.trace }

/-- The values the transport returns to `tcp_server_open`: from
`tcp_new_ip_type`, `tcp_bind`, `tcp_listen_with_backlog`, and from the
`tcp_close` of the listen-failure branch. -/
structure OpenRets where
  new_pcb : Option Pcb
  bind : Int
  listen : Option Pcb
  close : Int
  deriving DecidableEq, Repr

/-- The function `tcp_server_open`: the state it leaves, its calls, and the
`bool` it returns. -/
def tcp_server_open (state : TCP_SERVER_T) (t : OpenRets) : TCP_SERVER_T × List Cmd × Bool :=
  let t0 := [Cmd.printf (LogLine.starting_server TCP_PORT), Cmd.tcp_new_ip_type t.new_pcb]
  match t.new_pcb with
  | none => (state, t0 ++ [Cmd.printf LogLine.failed_to_create_pcb], false)
  | some pcb =>
    let t1 := t0 ++ [Cmd.tcp_bind pcb TCP_PORT t.bind]
    if t.bind ≠ 0 then (state, t1 ++ [Cmd.printf LogLine.failed_to_bind], false)
    else
      let t2 := t1 ++ [Cmd.tcp_listen_with_backlog pcb 1 t.listen]
      match t.listen with
      | none =>
        ({ state with server_pcb := none },
         t2 ++ [Cmd.printf LogLine.failed_to_listen, Cmd.tcp_close pcb t.close], false)
      | some l =>
        ({ state with server_pcb := some l },
         t2 ++ [Cmd.tcp_arg l Arg.state, Cmd.tcp_accept l Callback.tcp_server_accept], true)

/-! ## Events -/

/-- A callback invocation by the transport, with the values the transport
returns to the calls made while the callback runs. -/
inductive Event where
  | accept (client_pcb : Option Pcb) (err : Int) (write_ret : Int) (rc : CloseRets)
  | sent (tpcb : Pcb) (len : Nat)
  | recv (tpcb : Pcb) (p : Option Pbuf) (err : Int) (rc : CloseRets)
  | poll (tpcb : Pcb)
  | err (err : Int) (rc : CloseRets)
  deriving DecidableEq, Repr

/-- The transport invokes the callback registered for the event, with the
server state as `arg`. -/
def deliver (state : TCP_SERVER_T) : Event → Res
  | Event.accept client_pcb err write_ret rc => tcp_server_accept state client_pcb err write_ret rc
  | Event.sent tpcb len => tcp_server_sent state tpcb len
  | Event.recv tpcb p err rc => tcp_server_recv state tpcb p err rc
  | Event.poll tpcb => tcp_server_poll state tpcb
  | Event.err err rc => tcp_server_err state err rc

/-- The outcome of a sequence of events. -/
structure Run where
  state : TCP_SERVER_T
  trace : List Cmd
  oob : Bool
  deriving DecidableEq, Repr

/-- The callbacks run one after the other, each to completion; `oob` tells
whether one of them stored outside `buffer_recv`. -/
def run_events : TCP_SERVER_T → List Event → Run
  | s, [] => { state := s, trace := [], oob := false }
  | s, e :: es =>
    let r := deliver s e
    let k := run_events r.state es
    { state := k.state, trace := r.trace ++ k.trace, oob := r.oob || k.oob }

/-- The outcome of `run_tcp_server`: the state at its end (`none` when the
allocation failed), the calls made, whether the function returned, and whether
a callback stored outside `buffer_recv`. -/
structure Lifecycle where
  state : Option TCP_SERVER_T
  trace : List Cmd
  returned : Bool
  oob : Bool
  deriving DecidableEq, Repr

/-- The loop `while(!state->complete)` of `run_tcp_server`.  Each element of
`batches` holds the callbacks the transport runs during one iteration (inside
`cyw43_arch_poll` or during the sleep).  When the batches are used up and
`complete` is still false the loop goes on waiting: `returned` is false. -/
def wait_loop : TCP_SERVER_T → List (List Event) → Lifecycle
  | s, [] => { state := some s, trace := [], returned := s.complete, oob := false }
  | s, b :: bs =>
    if s.complete then { state := some s, trace := [], returned := true, oob := false }
    else
      let r := run_events s b
      let k := wait_loop r.state bs
      { k with trace := r.trace ++ k.trace, oob := r.oob || k.oob }

/-- The function `run_tcp_server`. -/
def run_tcp_server (alloc_ok : Bool) (t : OpenRets) (rc : CloseRets)
    (batches : List (List Event)) : Lifecycle :=
  match tcp_server_init alloc_ok with
  | (none, t0) => { state := none, trace := t0, returned := true, oob := false }
  | (some state, t0) =>
    match tcp_server_open state t with
    | (s, t1, false) =>
      let r := tcp_server_result s (-1) rc
      { state := some r.state, trace := t0 ++ t1 ++ r.trace, returned := true, oob := false }
    | (s, t1, true) =>
      let k := wait_loop s batches
      { k with trace := t0 ++ t1 ++ k.trace }

/-! ## Properties of traces -/

/-- The endpoint a command releases: a `tcp_close` that returned `ERR_OK`, or
a `tcp_abort`. -/
def Cmd.releases : Cmd → Option Pcb
  | Cmd.tcp_close pcb ret => if ret = ERR_OK then some pcb else none
  | Cmd.tcp_abort pcb => some pcb
  | _ => none

/-- The endpoints released once the trace has run, `rel` being those released
before it. -/
def released_after (rel : List Pcb) : List Cmd → List Pcb
  | [] => rel
  | c :: cs =>
    match c.releases with
    | some h => released_after (h :: rel) cs
    | none => released_after rel cs

/-- A check on the endpoints an event hands to its callback, `rel` being the
endpoints the server has closed or aborted so far: an accept brings an
endpoint that is neither the listener nor one of `rel`, and a payload arrives
on an endpoint that is not one of `rel`. -/
def Event.deliverable (listener : Option Pcb) (rel : List Pcb) : Event → Bool
  | Event.accept (some c) _ _ _ => decide (some c ≠ listener) && !(rel.contains c)
  | Event.recv tpcb (some _) _ _ => !(rel.contains tpcb)
  | _ => true

/-- Every event of the sequence passes the check when its turn comes. -/
def deliverable (listener : Option Pcb) : TCP_SERVER_T → List Pcb → List Event → Bool
  | _, _, [] => true
  | s, rel, e :: es =>
    e.deliverable listener rel &&
    deliverable listener (deliver s e).state (released_after rel (deliver s e).trace) es

/-- The `tcp_write` commands of a trace. -/
def writes (tr : List Cmd) : List Cmd :=
  tr.filter (fun c => match c with
    | Cmd.tcp_write _ _ _ _ _ => true
    | _ => false)

/-- The results of calling `tcp_server_close` again and again, once for each
element of `rcs`, each call starting from the state the previous one left. -/
def close_repeat : TCP_SERVER_T → List CloseRets → List Res
  | _, [] => []
  | s, rc :: rcs => tcp_server_close s rc :: close_repeat (tcp_server_close s rc).state rcs

/-- A state as `tcp_server_open` leaves it on success in a fresh lifecycle:
listener `l` held, no client, `complete` false. -/
def listening (l : Pcb) : TCP_SERVER_T := { zeroed with server_pcb := some l }

/-- Two clients connect one after the other, each accept succeeding and each
greeting write succeeding. -/
def two_accepts : List Event :=
  [Event.accept (some 1) ERR_OK ERR_OK { client := 0, server := 0 },
   Event.accept (some 2) ERR_OK ERR_OK { client := 0, server := 0 }]

/-- The commands of a trace that go to the transport: everything but the lines
written by `printf`. -/
def transport_cmds (tr : List Cmd) : List Cmd :=
  tr.filter (fun c => match c with
    | Cmd.printf _ => false
    | _ => true)

/-- The `pbuf_free` commands of a trace. -/
def frees (tr : List Cmd) : List Cmd :=
  tr.filter (fun c => match c with
    | Cmd.pbuf_free _ => true
    | _ => false)

/-- An accept callback reaches the state only while the state holds the
listener: `tcp_server_close` resets the listener's argument to NULL with
`tcp_arg(state->server_pcb, NULL)` before it drops the handle. -/
def accepts_while_listening : TCP_SERVER_T → List Event → Bool
  | _, [] => true
  | s, e :: es =>
    (match e with
     | Event.accept _ _ _ _ => s.server_pcb.isSome
     | _ => true) &&
    accepts_while_listening (deliver s e).state es

/-- The spec's `onError(code)`, in its words: whatever the code, also when it
tells of a just-issued abort, proceed to the terminal close and report, that is
`onResult(code)`. -/
def on_error_spec (state : TCP_SERVER_T) (code : Int) (rc : CloseRets) : Res :=
  tcp_server_result state code rc

/-- A client is accepted and greeted, acknowledges the six bytes, polls and
closes its side; an error notification arrives afterwards. -/
def greeted_session : List Event :=
  [Event.accept (some 1) ERR_OK ERR_OK { client := ERR_OK, server := ERR_OK },
   Event.sent 1 6,
   Event.poll 1,
   Event.recv 1 none ERR_OK { client := ERR_OK, server := ERR_OK },
   Event.err (-14) { client := ERR_OK, server := ERR_OK }]

theorem close_handles (state : TCP_SERVER_T) (rc : CloseRets) :
    (tcp_server_close state rc).state.client_pcb = none ∧
    (tcp_server_close state rc).state.server_pcb = none := by
  rcases state with ⟨sp, cp, d, b, n⟩
  cases sp <;> cases cp <;> by_cases h : rc.client = ERR_OK <;> simp [tcp_server_close, h]

theorem close_complete (state : TCP_SERVER_T) (rc : CloseRets) :
    (tcp_server_close state rc).state.complete = state.complete := by
  rcases state with ⟨sp, cp, d, b, n⟩
  cases sp <;> cases cp <;> by_cases h : rc.client = ERR_OK <;> simp [tcp_server_close, h]

theorem close_released (state : TCP_SERVER_T) (rc : CloseRets)
    (hc : state.client_pcb = none) (hs : state.server_pcb = none) :
    tcp_server_close state rc = { state := state, trace := [], ret := ERR_OK, oob := false } := by
  rcases state with ⟨sp, cp, d, b, n⟩
  simp only at hc hs
  subst hc hs
  simp [tcp_server_close]

theorem close_repeat_noop (s : TCP_SERVER_T) (hc : s.client_pcb = none)
    (hs : s.server_pcb = none) (rcs : List CloseRets) :
    ∀ r ∈ close_repeat s rcs, r = { state := s, trace := [], ret := ERR_OK, oob := false } := by
  induction rcs with
  | nil => simp [close_repeat]
  | cons rc rcs ih =>
    intro r hr
    simp only [close_repeat, close_released s rc hc hs, List.mem_cons] at hr
    rcases hr with hr | hr
    · exact hr
    · exact ih r hr

/-- C2: `tcp_server_close` is idempotent.  For every state and every value
returned by the transport, after one call `client_pcb` and `server_pcb` are both
NULL, and each further call, however many follow and whatever `tcp_close` would
return, issues no command, returns `ERR_OK` and leaves the state exactly as the
first call left it. -/
theorem C2_close_idempotent (state : TCP_SERVER_T) (rc : CloseRets) (rcs : List CloseRets) :
    (tcp_server_close state rc).state.client_pcb = none ∧
    (tcp_server_close state rc).state.server_pcb = none ∧
    (close_repeat (tcp_server_close state rc).state rcs).length = rcs.length ∧
    ∀ r ∈ close_repeat (tcp_server_close state rc).state rcs,
      r.trace = [] ∧ r.ret = ERR_OK ∧ r.state = (tcp_server_close state rc).state := by
  obtain ⟨hc, hs⟩ := close_handles state rc
  refine ⟨hc, hs, ?_, ?_⟩
  · generalize (tcp_server_close state rc).state = s
    induction rcs generalizing s with
    | nil => rfl
    | cons a as ih => simp [close_repeat, ih]
  · intro r hr
    rw [close_repeat_noop _ hc hs rcs r hr]
    exact ⟨rfl, rfl, rfl⟩

theorem result_terminal (state : TCP_SERVER_T) (status : Int) (rc : CloseRets) :
    (tcp_server_result state status rc).state.complete = true ∧
    (tcp_server_result state status rc).state.client_pcb = none ∧
    (tcp_server_result state status rc).state.server_pcb = none := by
  obtain ⟨hc, hs⟩ := close_handles { state with complete := true } rc
  have hd := close_complete { state with complete := true } rc
  simp only [tcp_server_result]
  exact ⟨hd, hc, hs⟩

theorem writes_close (state : TCP_SERVER_T) (rc : CloseRets) :
    writes (tcp_server_close state rc).trace = [] := by
  rcases state with ⟨sp, cp, d, b, n⟩
  cases sp <;> cases cp <;> by_cases h : rc.client = ERR_OK <;>
    simp [tcp_server_close, h, writes]

theorem writes_result (state : TCP_SERVER_T) (status : Int) (rc : CloseRets) :
    writes (tcp_server_result state status rc).trace = [] := by
  have h := writes_close { state with complete := true } rc
  simp only [writes] at h
  simp [tcp_server_result, writes, h]

/-- C7, as amended: a receive event with an absent payload (`p` NULL) is the
call `tcp_server_result(arg, 0)`: the line "completed normally" is logged,
`complete` becomes true and both handles end up NULL.  A receive event with a
present payload of total length 0 is not terminal: only `pbuf_free` is issued on
the payload, the state is left as it was and `ERR_OK` is returned. -/
theorem C7_recv_absent_terminates_empty_is_freed (state : TCP_SERVER_T) (tpcb : Pcb)
    (err : Int) (rc : CloseRets) :
    (tcp_server_recv state tpcb none err rc = tcp_server_result state 0 rc ∧
     (tcp_server_recv state tpcb none err rc).trace.head? =
       some (Cmd.printf LogLine.completed_normally) ∧
     (tcp_server_recv state tpcb none err rc).state.complete = true ∧
     (tcp_server_recv state tpcb none err rc).state.client_pcb = none ∧
     (tcp_server_recv state tpcb none err rc).state.server_pcb = none) ∧
    (∀ id : Nat, tcp_server_recv state tpcb (some { id := id, payload := [] }) err rc =
      { state := state, trace := [Cmd.cyw43_arch_lwip_check, Cmd.pbuf_free id],
        ret := ERR_OK, oob := false }) := by
  refine ⟨⟨rfl, ?_, ?_⟩, ?_⟩
  · simp [tcp_server_recv, tcp_server_result]
  · exact result_terminal state 0 rc
  · intro id
    simp [tcp_server_recv, Pbuf.tot_len]

/-- C7, counterexample: in a state holding listener 10 and client 1, a receive
event whose payload is present and has total length 0 leaves `complete` false
and both handles held, and logs nothing. -/
theorem C7_empty_payload_not_terminal :
    (tcp_server_recv { listening 10 with client_pcb := some 1 } 1
        (some { id := 7, payload := [] }) 0 { client := 0, server := 0 }).state.complete = false ∧
    (tcp_server_recv { listening 10 with client_pcb := some 1 } 1
        (some { id := 7, payload := [] }) 0 { client := 0, server := 0 }).state.client_pcb = some 1 ∧
    (tcp_server_recv { listening 10 with client_pcb := some 1 } 1
        (some { id := 7, payload := [] }) 0 { client := 0, server := 0 }).state.server_pcb = some 10 ∧
    (tcp_server_recv { listening 10 with client_pcb := some 1 } 1
        (some { id := 7, payload := [] }) 0 { client := 0, server := 0 }).trace =
      [Cmd.cyw43_arch_lwip_check, Cmd.pbuf_free 7] := by
  simp [tcp_server_recv, Pbuf.tot_len, listening, zeroed]

/-- C8: for every state in which the listener is held, with or without a client,
and every error code delivered to `tcp_server_err`, after that one callback
`complete` is true and `client_pcb` and `server_pcb` are both NULL, whatever the
two `tcp_close` calls return. -/
theorem C8_err_terminates_and_releases (state : TCP_SERVER_T) (l : Pcb) (err : Int)
    (rc : CloseRets) (_hl : state.server_pcb = some l) :
    (tcp_server_err state err rc).state.complete = true ∧
    (tcp_server_err state err rc).state.client_pcb = none ∧
    (tcp_server_err state err rc).state.server_pcb = none := by
  have h := result_terminal state err rc
  by_cases he : err = ERR_ABRT <;> simpa [tcp_server_err, he] using h

/-- C8 at a concrete input: listener 10 and client 1 held, error code -14, the
client's `tcp_close` failing. -/
theorem C8_err_terminates_and_releases_witness :
    (tcp_server_err { listening 10 with client_pcb := some 1 } (-14)
        { client := -1, server := 0 }).state.complete = true ∧
    (tcp_server_err { listening 10 with client_pcb := some 1 } (-14)
        { client := -1, server := 0 }).state.client_pcb = none ∧
    (tcp_server_err { listening 10 with client_pcb := some 1 } (-14)
        { client := -1, server := 0 }).state.server_pcb = none :=
  C8_err_terminates_and_releases { listening 10 with client_pcb := some 1 } 10 (-14)
    { client := -1, server := 0 } rfl

/-- C9, evaluated at the failing input: an accept event with status `ERR_OK`
and a NULL endpoint, in any state.  After "Failure in accept" the callback
calls `tcp_server_result` with status 0, so the next line logged is "completed
normally" and no "error" line is logged; it returns `ERR_VAL`. -/
theorem C9_accept_null_endpoint_reports_success (state : TCP_SERVER_T) (write_ret : Int)
    (rc : CloseRets) :
    (tcp_server_accept state none ERR_OK write_ret rc).trace =
      Cmd.printf LogLine.failure_in_accept :: (tcp_server_result state 0 rc).trace ∧
    (tcp_server_accept state none ERR_OK write_ret rc).trace =
      Cmd.printf LogLine.failure_in_accept :: Cmd.printf LogLine.completed_normally ::
        (tcp_server_close { state with complete := true } rc).trace ∧
    (∀ status, Cmd.printf (LogLine.error status) ∉
      (tcp_server_accept state none ERR_OK write_ret rc).trace) ∧
    (tcp_server_accept state none ERR_OK write_ret rc).ret = ERR_VAL := by
  refine ⟨rfl, rfl, ?_, rfl⟩
  intro status
  rcases state with ⟨sp, cp, d, b, n⟩
  cases sp <;> cases cp <;> by_cases h : rc.client = 0 <;>
    simp [tcp_server_accept, tcp_server_result, tcp_server_close, h, ERR_OK]

/-- C10: for every successful accept event (status `ERR_OK`, endpoint `c`
present), the trace of `tcp_server_accept` starts with the registration of the
argument and of the sent, recv, poll and err callbacks on `c`, followed by one
`tcp_write` on `c` of the six bytes of "hello\n" with length 6 and
`TCP_WRITE_FLAG_COPY`, and holds no other `tcp_write`; and `tcp_server_recv`,
`tcp_server_sent`, `tcp_server_poll`, `tcp_server_err` and `tcp_server_close`
issue no `tcp_write` at all, in any state. -/
theorem C10_greeting_written_once (state : TCP_SERVER_T) (c : Pcb) (write_ret : Int)
    (rc : CloseRets) :
    (∃ post, (tcp_server_accept state (some c) ERR_OK write_ret rc).trace =
        [Cmd.printf LogLine.client_connected, Cmd.tcp_arg c Arg.state,
         Cmd.tcp_sent c Callback.tcp_server_sent, Cmd.tcp_recv c Callback.tcp_server_recv,
         Cmd.tcp_poll c Callback.tcp_server_poll 10, Cmd.tcp_err c Callback.tcp_server_err,
         Cmd.printf LogLine.writing_to_client, Cmd.cyw43_arch_lwip_check,
         Cmd.tcp_write c [104, 101, 108, 108, 111, 10] 6 TCP_WRITE_FLAG_COPY write_ret] ++ post ∧
       writes post = []) ∧
    writes (tcp_server_accept state (some c) ERR_OK write_ret rc).trace =
      [Cmd.tcp_write c [104, 101, 108, 108, 111, 10] 6 TCP_WRITE_FLAG_COPY write_ret] ∧
    (∀ (s : TCP_SERVER_T) (tpcb : Pcb) (p : Option Pbuf) (err : Int) (k : CloseRets),
      writes (tcp_server_recv s tpcb p err k).trace = []) ∧
    (∀ (s : TCP_SERVER_T) (tpcb : Pcb) (len : Nat), writes (tcp_server_sent s tpcb len).trace = []) ∧
    (∀ (s : TCP_SERVER_T) (tpcb : Pcb), writes (tcp_server_poll s tpcb).trace = []) ∧
    (∀ (s : TCP_SERVER_T) (err : Int) (k : CloseRets), writes (tcp_server_err s err k).trace = []) ∧
    (∀ (s : TCP_SERVER_T) (k : CloseRets), writes (tcp_server_close s k).trace = []) := by
  have hpre : (∃ post, (tcp_server_accept state (some c) ERR_OK write_ret rc).trace =
        [Cmd.printf LogLine.client_connected, Cmd.tcp_arg c Arg.state,
         Cmd.tcp_sent c Callback.tcp_server_sent, Cmd.tcp_recv c Callback.tcp_server_recv,
         Cmd.tcp_poll c Callback.tcp_server_poll 10, Cmd.tcp_err c Callback.tcp_server_err,
         Cmd.printf LogLine.writing_to_client, Cmd.cyw43_arch_lwip_check,
         Cmd.tcp_write c [104, 101, 108, 108, 111, 10] 6 TCP_WRITE_FLAG_COPY write_ret] ++ post ∧
       writes post = []) := by
    by_cases hw : write_ret = ERR_OK
    · refine ⟨[], ?_, rfl⟩
      simp [tcp_server_accept, tcp_server_send_data, hw, hello, strlen, POLL_TIME_S]
    · refine ⟨Cmd.printf (LogLine.failed_to_write write_ret) ::
          (tcp_server_result { state with client_pcb := some c, sent_len := 0 } (-1) rc).trace,
        ?_, ?_⟩
      · simp [tcp_server_accept, tcp_server_send_data, hw, hello, strlen, POLL_TIME_S]
      · have h := writes_result { state with client_pcb := some c, sent_len := 0 } (-1) rc
        simp only [writes] at h
        simp [writes, h]
  refine ⟨hpre, ?_, ?_, ?_, ?_, ?_, writes_close⟩
  · obtain ⟨post, h1, h2⟩ := hpre
    rw [h1]
    simp only [writes] at h2
    simp [writes, h2]
  · intro s tpcb p err k
    cases p with
    | none => exact writes_result s 0 k
    | some q =>
      simp only [tcp_server_recv]
      split
      · split <;> simp [writes]
      · simp [writes]
  · intro s tpcb len
    simp only [tcp_server_sent]
    split <;> simp [writes]
  · intro s tpcb
    simp [tcp_server_poll, writes]
  · intro s err k
    have h := writes_result s err k
    by_cases he : err = ERR_ABRT <;> simpa [tcp_server_err, he, writes] using h

theorem store_bytes_fits (buf payload : List Nat) (h : payload.length ≤ buf.length) :
    store_bytes buf 0 payload = some (payload ++ buf.drop payload.length) := by
  unfold store_bytes
  rw [if_pos (by omega)]
  simp only [List.take_zero, List.nil_append, Nat.zero_add]

theorem recv_stores (buf payload : List Nat) (h : payload.length < buf.length) :
    (store_bytes buf 0 payload).bind (fun b => store_byte b payload.length 0) =
      some (payload ++ 0 :: buf.drop (payload.length + 1)) := by
  have h2 : payload.length < (payload ++ buf.drop payload.length).length := by
    simp only [List.length_append, List.length_drop]
    omega
  rw [store_bytes_fits buf payload (le_of_lt h), Option.some_bind]
  unfold store_byte
  rw [if_pos h2, List.set_append_right _ _ (le_refl _), Nat.sub_self,
    List.drop_eq_getElem_cons h, List.set_cons_zero]

theorem recv_stores_oob (buf payload : List Nat) (h : buf.length ≤ payload.length) :
    (store_bytes buf 0 payload).bind (fun b => store_byte b payload.length 0) = none := by
  by_cases h1 : payload.length ≤ buf.length
  · have h2 : ¬ payload.length < (payload ++ buf.drop payload.length).length := by
      simp only [List.length_append, List.length_drop]
      omega
    rw [store_bytes_fits buf payload h1, Option.some_bind]
    unfold store_byte
    rw [if_neg h2]
  · unfold store_bytes
    rw [if_neg (by omega)]
    rfl

theorem copy_whole (p : Pbuf) : pbuf_copy_partial p p.tot_len 0 = p.payload := by
  simp [ pbuf_copy_partial, Pbuf.tot_len]

theorem copy_whole_of_len (p : Pbuf) {n : Nat} (h : p.tot_len = n) :
    pbuf_copy_partial p n 0 = p.payload := by
  rw [← h]
  exact copy_whole p

theorem c_string_terminated (payload rest : List Nat) :
    c_string (payload ++ 0 :: rest) = c_string payload := by
  induction payload with
  | nil => simp [c_string]
  | cons a as ih =>
    simp only [c_string] at ih
    by_cases ha : a = 0 <;> simp [c_string, List.takeWhile_cons, ha, ih]

theorem recv_payload_eq (state : TCP_SERVER_T) (tpcb : Pcb) (p : Pbuf) (err : Int)
    (rc : CloseRets) (h1 : 0 < p.tot_len) (h2 : p.tot_len < state.buffer_recv.length) :
    tcp_server_recv state tpcb (some p) err rc =
      { state := { state with
          buffer_recv := p.payload ++ 0 :: state.buffer_recv.drop (p.tot_len + 1) },
        trace := [Cmd.cyw43_arch_lwip_check,
                  Cmd.printf (LogLine.tcp_server_recv p.tot_len err),
                  Cmd.pbuf_copy_partial p.id p.tot_len 0,
                  Cmd.printf (LogLine.text (c_string p.payload)),
                  Cmd.tcp_recved tpcb p.tot_len, Cmd.pbuf_free p.id],
        ret := ERR_OK, oob := false } := by
  have hs := recv_stores state.buffer_recv p.payload h2
  simp only [tcp_server_recv, gt_iff_lt, h1, if_true, copy_whole]
  simp only [Pbuf.tot_len] at hs ⊢
  rw [hs]
  simp [c_string_terminated]

theorem recv_payload_oob (state : TCP_SERVER_T) (tpcb : Pcb) (p : Pbuf) (err : Int)
    (rc : CloseRets) (h1 : 0 < p.tot_len) (h2 : state.buffer_recv.length ≤ p.tot_len) :
    tcp_server_recv state tpcb (some p) err rc =
      { state := { state with
          buffer_recv := (p.payload ++ [0]).take state.buffer_recv.length },
        trace := [Cmd.cyw43_arch_lwip_check,
                  Cmd.printf (LogLine.tcp_server_recv p.tot_len err),
                  Cmd.pbuf_copy_partial p.id p.tot_len 0,
                  Cmd.printf (LogLine.text (c_string p.payload)),
                  Cmd.tcp_recved tpcb p.tot_len, Cmd.pbuf_free p.id],
        ret := ERR_OK, oob := true } := by
  have hs := recv_stores_oob state.buffer_recv p.payload h2
  simp only [tcp_server_recv, gt_iff_lt, h1, if_true, copy_whole]
  simp only [Pbuf.tot_len] at hs ⊢
  rw [hs]
  simp [c_string_terminated]

theorem c_string_replicate (n b : Nat) (hb : b ≠ 0) :
    c_string (List.replicate n b) = List.replicate n b := by
  unfold c_string
  rw [List.takeWhile_eq_self_iff]
  intro x hx
  rw [List.eq_of_mem_replicate hx]
  simpa using hb

/-- C3, evaluated at the failing input: a receive event whose payload has
`BUF_SIZE` = 2048 bytes, in a state whose `buffer_recv` has its 2048 bytes.  The
copy length passed to `pbuf_copy_partial` is the unchecked `tot_len` = 2048, the
copy fills the whole array, and the terminating 0 is stored at index 2048, one
past the last element: the call stores outside `buffer_recv`.  It then prints
the 2048 bytes, calls `tcp_recved` and `pbuf_free` and returns. -/
theorem C3_recv_stores_past_buffer :
    Pbuf.tot_len { id := 7, payload := List.replicate BUF_SIZE 65 } = 2048 ∧
    (listening 10).buffer_recv.length = 2048 ∧
    (store_bytes (listening 10).buffer_recv 0
      ( pbuf_copy_partial { id := 7, payload := List.replicate BUF_SIZE 65 } BUF_SIZE 0)).isSome
        = true ∧
    (∀ b : List Nat, b.length = 2048 →
      store_byte b (Pbuf.tot_len { id := 7, payload := List.replicate BUF_SIZE 65 }) 0 = none) ∧
    (tcp_server_recv { listening 10 with client_pcb := some 1 } 1
        (some { id := 7, payload := List.replicate BUF_SIZE 65 }) 0
        { client := 0, server := 0 }).oob = true ∧
    (tcp_server_recv { listening 10 with client_pcb := some 1 } 1
        (some { id := 7, payload := List.replicate BUF_SIZE 65 }) 0
        { client := 0, server := 0 }).trace =
      [Cmd.cyw43_arch_lwip_check, Cmd.printf (LogLine.tcp_server_recv 2048 0),
       Cmd.pbuf_copy_partial 7 2048 0,
       Cmd.printf (LogLine.text (List.replicate BUF_SIZE 65)),
       Cmd.tcp_recved 1 2048, Cmd.pbuf_free 7] := by
  have hl : Pbuf.tot_len { id := 7, payload := List.replicate BUF_SIZE 65 } = 2048 := by
    simp only [Pbuf.tot_len, List.length_replicate, BUF_SIZE]
  have hb : (listening 10).buffer_recv.length = 2048 := by
    simp only [listening, zeroed, List.length_replicate, BUF_SIZE]
  have h := recv_payload_oob { listening 10 with client_pcb := some 1 } 1
    { id := 7, payload := List.replicate BUF_SIZE 65 } 0 { client := 0, server := 0 }
    (by rw [hl]; decide) (by rw [hl]; exact le_of_eq hb)
  refine ⟨hl, hb, ?_, ?_, ?_, ?_⟩
  · rw [copy_whole_of_len _ (by simp only [Pbuf.tot_len, List.length_replicate]),
      store_bytes_fits _ _ (by simp only [listening, zeroed, List.length_replicate, le_refl])]
    rfl
  · intro b hlen
    unfold store_byte
    rw [if_neg (by rw [hl, hlen]; decide)]
  · rw [h]
  · rw [h, hl, c_string_replicate BUF_SIZE 65 (by decide)]

/-- C4, evaluated at the failing input: `tcp_new_ip_type` yields endpoint 1 and
`tcp_bind` fails with -8.  `run_tcp_server` returns with `complete` set, and its
whole trace holds no `tcp_close` and no `tcp_abort`: endpoint 1 is never
released.  When instead `tcp_listen_with_backlog` fails, the sibling branch of
`tcp_server_open` does close endpoint 1. -/
theorem C4_bind_failure_leaks_endpoint (rc : CloseRets) (batches : List (List Event)) :
    (run_tcp_server true { new_pcb := some 1, bind := -8, listen := none, close := 0 }
        rc batches).returned = true ∧
    (run_tcp_server true { new_pcb := some 1, bind := -8, listen := none, close := 0 }
        rc batches).state = some { zeroed with complete := true } ∧
    (run_tcp_server true { new_pcb := some 1, bind := -8, listen := none, close := 0 }
        rc batches).trace =
      [Cmd.printf (LogLine.starting_server 4242), Cmd.tcp_new_ip_type (some 1),
       Cmd.tcp_bind 1 4242 (-8), Cmd.printf LogLine.failed_to_bind,
       Cmd.printf (LogLine.error (-1))] ∧
    released_after [] (run_tcp_server true
        { new_pcb := some 1, bind := -8, listen := none, close := 0 } rc batches).trace = [] ∧
    Cmd.tcp_close 1 0 ∈ (run_tcp_server true
        { new_pcb := some 1, bind := 0, listen := none, close := 0 } rc batches).trace := by
  simp [run_tcp_server, tcp_server_init, tcp_server_open, tcp_server_result, tcp_server_close,
    zeroed, TCP_PORT, released_after, Cmd.releases]

/-- C5, evaluated at the failing input: after a successful `tcp_server_open`
with listener 10, two successful accept events deliver the fresh endpoints 1
and 2.  Afterwards `complete` is false, `client_pcb` holds 2, and endpoint 1,
on which the callbacks were registered and never deregistered, has been neither
closed nor aborted: two client endpoints are live and the first is no longer
owned by the state. -/
theorem C5_second_accept_orphans_first_client :
    tcp_server_open zeroed { new_pcb := some 9, bind := 0, listen := some 10, close := 0 } =
      (listening 10,
       [Cmd.printf (LogLine.starting_server 4242), Cmd.tcp_new_ip_type (some 9),
        Cmd.tcp_bind 9 4242 0, Cmd.tcp_listen_with_backlog 9 1 (some 10),
        Cmd.tcp_arg 10 Arg.state, Cmd.tcp_accept 10 Callback.tcp_server_accept], true) ∧
    deliverable (some 10) (listening 10) [] two_accepts = true ∧
    (run_events (listening 10) two_accepts).oob = false ∧
    (run_events (listening 10) two_accepts).state.complete = false ∧
    (run_events (listening 10) two_accepts).state.client_pcb = some 2 ∧
    (run_events (listening 10) two_accepts).state.server_pcb = some 10 ∧
    Cmd.tcp_recv 1 Callback.tcp_server_recv ∈ (run_events (listening 10) two_accepts).trace ∧
    Cmd.tcp_recv 1 Callback.NULL ∉ (run_events (listening 10) two_accepts).trace ∧
    released_after [] (run_events (listening 10) two_accepts).trace = [] := by
  simp [run_events, deliver, deliverable, Event.deliverable, two_accepts, tcp_server_accept,
    tcp_server_send_data, tcp_server_open, listening, zeroed, TCP_PORT, released_after,
    Cmd.releases, ERR_OK]

/-- C6, as amended: for every receive event whose payload has `L` bytes with
`1 ≤ L ≤ BUF_SIZE - 1`, of any values, in a state whose `buffer_recv` has its
`BUF_SIZE` bytes: afterwards `buffer_recv[0..L)` is the payload and
`buffer_recv[L]` is 0; the text printed from `buffer_recv` is the part of the
payload before its first zero byte, which is the whole payload when no payload
byte is zero; and `tcp_recved` is called exactly once, with the value `L`. -/
theorem C6_recv_logs_and_acknowledges (state : TCP_SERVER_T) (tpcb : Pcb) (p : Pbuf)
    (err : Int) (rc : CloseRets) (hbuf : state.buffer_recv.length = BUF_SIZE)
    (h1 : 1 ≤ p.tot_len) (h2 : p.tot_len ≤ BUF_SIZE - 1) :
    (tcp_server_recv state tpcb (some p) err rc).oob = false ∧
    (tcp_server_recv state tpcb (some p) err rc).state.buffer_recv.take p.tot_len = p.payload ∧
    (tcp_server_recv state tpcb (some p) err rc).state.buffer_recv[p.tot_len]? = some 0 ∧
    c_string (tcp_server_recv state tpcb (some p) err rc).state.buffer_recv =
      p.payload.takeWhile (fun b => b != 0) ∧
    (tcp_server_recv state tpcb (some p) err rc).trace =
      [Cmd.cyw43_arch_lwip_check, Cmd.printf (LogLine.tcp_server_recv p.tot_len err),
       Cmd.pbuf_copy_partial p.id p.tot_len 0,
       Cmd.printf (LogLine.text (p.payload.takeWhile (fun b => b != 0))),
       Cmd.tcp_recved tpcb p.tot_len, Cmd.pbuf_free p.id] ∧
    ((∀ b ∈ p.payload, b ≠ 0) → p.payload.takeWhile (fun b => b != 0) = p.payload) := by
  have hlt : p.tot_len < state.buffer_recv.length := by
    rw [hbuf]
    have : 0 < BUF_SIZE := by decide
    omega
  rw [recv_payload_eq state tpcb p err rc (by omega) hlt]
  refine ⟨rfl, ?_, ?_, ?_, rfl, ?_⟩
  · exact List.take_left' rfl
  · simp only [Pbuf.tot_len]
    rw [List.getElem?_append_right (le_refl _), Nat.sub_self, List.getElem?_cons_zero]
  · exact c_string_terminated _ _
  · intro h
    rw [List.takeWhile_eq_self_iff]
    intro b hb
    simpa using h b hb

/-- C6 at a concrete input: the payload "ping" is logged as "ping" and
`tcp_recved` is called with 4. -/
theorem C6_recv_logs_and_acknowledges_witness :
    ({ listening 10 with client_pcb := some 1 } : TCP_SERVER_T).buffer_recv.length = BUF_SIZE ∧
    Pbuf.tot_len { id := 7, payload := [112, 105, 110, 103] } = 4 ∧
    List.takeWhile (fun b => b != 0) [112, 105, 110, 103] = [112, 105, 110, 103] ∧
    (tcp_server_recv { listening 10 with client_pcb := some 1 } 1
        (some { id := 7, payload := [112, 105, 110, 103] }) 0
        { client := 0, server := 0 }).trace =
      [Cmd.cyw43_arch_lwip_check,
       Cmd.printf (LogLine.tcp_server_recv
         (Pbuf.tot_len { id := 7, payload := [112, 105, 110, 103] }) 0),
       Cmd.pbuf_copy_partial 7 (Pbuf.tot_len { id := 7, payload := [112, 105, 110, 103] }) 0,
       Cmd.printf (LogLine.text (List.takeWhile (fun b => b != 0) [112, 105, 110, 103])),
       Cmd.tcp_recved 1 (Pbuf.tot_len { id := 7, payload := [112, 105, 110, 103] }),
       Cmd.pbuf_free 7] :=
  ⟨List.length_replicate _ _, rfl, by decide,
   (C6_recv_logs_and_acknowledges { listening 10 with client_pcb := some 1 } 1
      { id := 7, payload := [112, 105, 110, 103] } 0 { client := 0, server := 0 }
      (List.length_replicate _ _) (by decide) (by decide)).2.2.2.2.1⟩

/-- C6, counterexample: the 4-byte payload 'p', 0, 'n', 'g' has a zero byte at
index 1.  The text printed from `buffer_recv` is the single byte 'p', not the
four payload bytes; `tcp_recved` is still called with 4. -/
theorem C6_zero_byte_cuts_logged_text :
    (tcp_server_recv { listening 10 with client_pcb := some 1 } 1
        (some { id := 7, payload := [112, 0, 110, 103] }) 0
        { client := 0, server := 0 }).trace =
      [Cmd.cyw43_arch_lwip_check, Cmd.printf (LogLine.tcp_server_recv 4 0),
       Cmd.pbuf_copy_partial 7 4 0, Cmd.printf (LogLine.text [112]),
       Cmd.tcp_recved 1 4, Cmd.pbuf_free 7] ∧
    ([112] : List Nat) ≠ [112, 0, 110, 103] := by
  refine ⟨?_, by decide⟩
  rw [recv_payload_eq _ _ _ _ _ (by decide)
    (by rw [show ({ listening 10 with client_pcb := some 1 } : TCP_SERVER_T).buffer_recv.length
              = BUF_SIZE from List.length_replicate _ _]; decide)]
  rfl

theorem accept_ok_eq (s : TCP_SERVER_T) (c : Pcb) (rc : CloseRets) :
    tcp_server_accept s (some c) ERR_OK ERR_OK rc =
      { state := { s with client_pcb := some c, sent_len := 0 },
        trace := [Cmd.printf LogLine.client_connected, Cmd.tcp_arg c Arg.state,
          Cmd.tcp_sent c Callback.tcp_server_sent, Cmd.tcp_recv c Callback.tcp_server_recv,
          Cmd.tcp_poll c Callback.tcp_server_poll (POLL_TIME_S * 2),
          Cmd.tcp_err c Callback.tcp_server_err,
          Cmd.printf LogLine.writing_to_client, Cmd.cyw43_arch_lwip_check,
          Cmd.tcp_write c hello (strlen hello) TCP_WRITE_FLAG_COPY ERR_OK],
        ret := ERR_OK, oob := false } := by
  simp [tcp_server_accept, tcp_server_send_data]

theorem accept_write_failed_eq (s : TCP_SERVER_T) (c : Pcb) (write_ret : Int) (rc : CloseRets)
    (hw : write_ret ≠ ERR_OK) :
    tcp_server_accept s (some c) ERR_OK write_ret rc =
      { state := (tcp_server_result { s with client_pcb := some c, sent_len := 0 } (-1) rc).state,
        trace := [Cmd.printf LogLine.client_connected, Cmd.tcp_arg c Arg.state,
          Cmd.tcp_sent c Callback.tcp_server_sent, Cmd.tcp_recv c Callback.tcp_server_recv,
          Cmd.tcp_poll c Callback.tcp_server_poll (POLL_TIME_S * 2),
          Cmd.tcp_err c Callback.tcp_server_err,
          Cmd.printf LogLine.writing_to_client, Cmd.cyw43_arch_lwip_check,
          Cmd.tcp_write c hello (strlen hello) TCP_WRITE_FLAG_COPY write_ret,
          Cmd.printf (LogLine.failed_to_write write_ret)] ++
          (tcp_server_result { s with client_pcb := some c, sent_len := 0 } (-1) rc).trace,
        ret := (tcp_server_result { s with client_pcb := some c, sent_len := 0 } (-1) rc).ret,
        oob := (tcp_server_result { s with client_pcb := some c, sent_len := 0 } (-1) rc).oob } := by
  simp [tcp_server_accept, tcp_server_send_data, hw]

theorem accept_failed_eq (s : TCP_SERVER_T) (cp : Option Pcb) (err write_ret : Int)
    (rc : CloseRets) (h : err ≠ ERR_OK ∨ cp = none) :
    tcp_server_accept s cp err write_ret rc =
      { state := (tcp_server_result s err rc).state,
        trace := Cmd.printf LogLine.failure_in_accept :: (tcp_server_result s err rc).trace,
        ret := ERR_VAL,
        oob := (tcp_server_result s err rc).oob } := by
  cases cp with
  | none => rfl
  | some c =>
    have he : err ≠ ERR_OK := by
      rcases h with h | h
      · exact h
      · cases h
    simp [tcp_server_accept, he]

theorem recv_absent_eq (s : TCP_SERVER_T) (tpcb : Pcb) (err : Int) (rc : CloseRets) :
    tcp_server_recv s tpcb none err rc = tcp_server_result s 0 rc := rfl

theorem close_with_client (s : TCP_SERVER_T) (c : Pcb) (rc : CloseRets)
    (hc : s.client_pcb = some c) :
    tcp_server_close s rc =
      { state := { s with client_pcb := none, server_pcb := none },
        trace := [Cmd.tcp_arg c Arg.NULL, Cmd.tcp_poll c Callback.NULL 0,
                  Cmd.tcp_sent c Callback.NULL, Cmd.tcp_recv c Callback.NULL,
                  Cmd.tcp_err c Callback.NULL, Cmd.tcp_close c rc.client] ++
          (if rc.client ≠ ERR_OK then
            [Cmd.printf (LogLine.close_failed rc.client), Cmd.tcp_abort c] else []) ++
          (match s.server_pcb with
           | some l => [Cmd.tcp_arg l Arg.NULL, Cmd.tcp_close l rc.server]
           | none => []),
        ret := if rc.client ≠ ERR_OK then ERR_ABRT else ERR_OK,
        oob := false } := by
  rcases s with ⟨sp, cp, d, b, n⟩
  simp only at hc
  subst hc
  cases sp <;> by_cases h : rc.client = ERR_OK <;> simp [tcp_server_close, h]

theorem close_without_client (s : TCP_SERVER_T) (rc : CloseRets)
    (hc : s.client_pcb = none) :
    tcp_server_close s rc =
      { state := { s with server_pcb := none },
        trace := (match s.server_pcb with
                  | some l => [Cmd.tcp_arg l Arg.NULL, Cmd.tcp_close l rc.server]
                  | none => []),
        ret := ERR_OK, oob := false } := by
  rcases s with ⟨sp, cp, d, b, n⟩
  simp only at hc
  subst hc
  cases sp <;> simp [tcp_server_close]

/-- C11: for every successful accept event (status `ERR_OK`, endpoint `c`) in
which the greeting `tcp_write` returns an error, `tcp_server_accept` ends the
lifecycle through `tcp_server_result` with status -1: the line "error -1" is
logged and "completed normally" is not, `complete` is true, the callbacks of
`c`, the receive callback among them, are deregistered before `tcp_close` is
issued on `c`, and `client_pcb` and `server_pcb` are both NULL on return. -/
theorem C11_write_failure_ends_lifecycle (state : TCP_SERVER_T) (c : Pcb) (write_ret : Int)
    (rc : CloseRets) (hw : write_ret ≠ ERR_OK) :
    (tcp_server_accept state (some c) ERR_OK write_ret rc).state =
      (tcp_server_result { state with client_pcb := some c, sent_len := 0 } (-1) rc).state ∧
    (tcp_server_accept state (some c) ERR_OK write_ret rc).trace =
      [Cmd.printf LogLine.client_connected, Cmd.tcp_arg c Arg.state,
       Cmd.tcp_sent c Callback.tcp_server_sent, Cmd.tcp_recv c Callback.tcp_server_recv,
       Cmd.tcp_poll c Callback.tcp_server_poll 10, Cmd.tcp_err c Callback.tcp_server_err,
       Cmd.printf LogLine.writing_to_client, Cmd.cyw43_arch_lwip_check,
       Cmd.tcp_write c [104, 101, 108, 108, 111, 10] 6 TCP_WRITE_FLAG_COPY write_ret,
       Cmd.printf (LogLine.failed_to_write write_ret), Cmd.printf (LogLine.error (-1)),
       Cmd.tcp_arg c Arg.NULL, Cmd.tcp_poll c Callback.NULL 0,
       Cmd.tcp_sent c Callback.NULL, Cmd.tcp_recv c Callback.NULL,
       Cmd.tcp_err c Callback.NULL, Cmd.tcp_close c rc.client] ++
      (if rc.client ≠ ERR_OK then
        [Cmd.printf (LogLine.close_failed rc.client), Cmd.tcp_abort c] else []) ++
      (match state.server_pcb with
       | some l => [Cmd.tcp_arg l Arg.NULL, Cmd.tcp_close l rc.server]
       | none => []) ∧
    Cmd.printf LogLine.completed_normally ∉
      (tcp_server_accept state (some c) ERR_OK write_ret rc).trace ∧
    (tcp_server_accept state (some c) ERR_OK write_ret rc).state.complete = true ∧
    (tcp_server_accept state (some c) ERR_OK write_ret rc).state.client_pcb = none ∧
    (tcp_server_accept state (some c) ERR_OK write_ret rc).state.server_pcb = none := by
  have hres := result_terminal { state with client_pcb := some c, sent_len := 0 } (-1) rc
  have htr : (tcp_server_accept state (some c) ERR_OK write_ret rc).trace =
      [Cmd.printf LogLine.client_connected, Cmd.tcp_arg c Arg.state,
       Cmd.tcp_sent c Callback.tcp_server_sent, Cmd.tcp_recv c Callback.tcp_server_recv,
       Cmd.tcp_poll c Callback.tcp_server_poll 10, Cmd.tcp_err c Callback.tcp_server_err,
       Cmd.printf LogLine.writing_to_client, Cmd.cyw43_arch_lwip_check,
       Cmd.tcp_write c [104, 101, 108, 108, 111, 10] 6 TCP_WRITE_FLAG_COPY write_ret,
       Cmd.printf (LogLine.failed_to_write write_ret), Cmd.printf (LogLine.error (-1)),
       Cmd.tcp_arg c Arg.NULL, Cmd.tcp_poll c Callback.NULL 0,
       Cmd.tcp_sent c Callback.NULL, Cmd.tcp_recv c Callback.NULL,
       Cmd.tcp_err c Callback.NULL, Cmd.tcp_close c rc.client] ++
      (if rc.client ≠ ERR_OK then
        [Cmd.printf (LogLine.close_failed rc.client), Cmd.tcp_abort c] else []) ++
      (match state.server_pcb with
       | some l => [Cmd.tcp_arg l Arg.NULL, Cmd.tcp_close l rc.server]
       | none => []) := by
    rw [accept_write_failed_eq state c write_ret rc hw]
    simp only [tcp_server_result]
    rw [close_with_client { state with client_pcb := some c, sent_len := 0, complete := true }
      c rc rfl]
    simp [hello, strlen, POLL_TIME_S]
  rw [accept_write_failed_eq state c write_ret rc hw] at htr ⊢
  refine ⟨rfl, htr, ?_, hres.1, hres.2.1, hres.2.2⟩
  rw [htr]
  cases hsp : state.server_pcb <;> by_cases h : rc.client = ERR_OK <;> simp [h]

/-- C11 at a concrete input: listener 10 held, endpoint 1 accepted, the greeting
write returning -1 and the graceful close succeeding. -/
theorem C11_write_failure_ends_lifecycle_witness :
    (-1 : Int) ≠ ERR_OK ∧
    (tcp_server_accept (listening 10) (some 1) ERR_OK (-1)
        { client := ERR_OK, server := ERR_OK }).state.complete = true ∧
    (tcp_server_accept (listening 10) (some 1) ERR_OK (-1)
        { client := ERR_OK, server := ERR_OK }).state.client_pcb = none ∧
    (tcp_server_accept (listening 10) (some 1) ERR_OK (-1)
        { client := ERR_OK, server := ERR_OK }).state.server_pcb = none :=
  ⟨by decide,
   (C11_write_failure_ends_lifecycle (listening 10) 1 (-1)
      { client := ERR_OK, server := ERR_OK } (by decide)).2.2.2⟩

/-- C12: in every state holding a client handle `c`, `tcp_server_close` issues
on `c`, in this order, `tcp_arg`, `tcp_poll`, `tcp_sent`, `tcp_recv` and
`tcp_err` with NULL and only then `tcp_close`; `tcp_abort` is issued on `c`,
right after that `tcp_close`, if and only if the `tcp_close` returned an error;
the returned value is `ERR_ABRT` exactly when the abort was issued and `ERR_OK`
otherwise, whatever the `tcp_close` of the listening handle returns.  When no
client handle is held the returned value is `ERR_OK`. -/
theorem C12_close_order_abort_and_result (state : TCP_SERVER_T) (c : Pcb) (rc : CloseRets)
    (hc : state.client_pcb = some c) :
    (tcp_server_close state rc).trace =
      [Cmd.tcp_arg c Arg.NULL, Cmd.tcp_poll c Callback.NULL 0,
       Cmd.tcp_sent c Callback.NULL, Cmd.tcp_recv c Callback.NULL,
       Cmd.tcp_err c Callback.NULL, Cmd.tcp_close c rc.client] ++
      (if rc.client ≠ ERR_OK then
        [Cmd.printf (LogLine.close_failed rc.client), Cmd.tcp_abort c] else []) ++
      (match state.server_pcb with
       | some l => [Cmd.tcp_arg l Arg.NULL, Cmd.tcp_close l rc.server]
       | none => []) ∧
    (Cmd.tcp_abort c ∈ (tcp_server_close state rc).trace ↔ rc.client ≠ ERR_OK) ∧
    ((tcp_server_close state rc).ret = ERR_ABRT ↔
      Cmd.tcp_abort c ∈ (tcp_server_close state rc).trace) ∧
    ((tcp_server_close state rc).ret = ERR_OK ↔
      Cmd.tcp_abort c ∉ (tcp_server_close state rc).trace) ∧
    (∀ server_ret : Int,
      (tcp_server_close state { client := rc.client, server := server_ret }).ret =
        (tcp_server_close state rc).ret) ∧
    (∀ (s : TCP_SERVER_T) (k : CloseRets), s.client_pcb = none →
      (tcp_server_close s k).ret = ERR_OK) := by
  have hab : Cmd.tcp_abort c ∈ (tcp_server_close state rc).trace ↔ rc.client ≠ ERR_OK := by
    rw [close_with_client state c rc hc]
    cases hsp : state.server_pcb <;> by_cases h : rc.client = ERR_OK <;> simp [h]
  have hret : (tcp_server_close state rc).ret = if rc.client ≠ ERR_OK then ERR_ABRT else ERR_OK := by
    rw [close_with_client state c rc hc]
  refine ⟨?_, hab, ?_, ?_, ?_, ?_⟩
  · rw [close_with_client state c rc hc]
  · rw [hab, hret]
    by_cases h : rc.client = ERR_OK <;> simp [h, ERR_OK, ERR_ABRT]
  · rw [hab, hret]
    by_cases h : rc.client = ERR_OK <;> simp [h, ERR_OK, ERR_ABRT]
  · intro server_ret
    rw [close_with_client state c rc hc, close_with_client state c _ hc]
  · intro s k hs
    rw [close_without_client s k hs]

/-- C12 at a concrete input: listener 10 and client 1 held, the client's
`tcp_close` returning -1. -/
theorem C12_close_order_abort_and_result_witness :
    ({ listening 10 with client_pcb := some 1 } : TCP_SERVER_T).client_pcb = some 1 ∧
    (Cmd.tcp_abort 1 ∈ (tcp_server_close { listening 10 with client_pcb := some 1 }
        { client := -1, server := ERR_OK }).trace ↔ (-1 : Int) ≠ ERR_OK) ∧
    ((tcp_server_close { listening 10 with client_pcb := some 1 }
        { client := -1, server := ERR_OK }).ret = ERR_ABRT ↔
      Cmd.tcp_abort 1 ∈ (tcp_server_close { listening 10 with client_pcb := some 1 }
        { client := -1, server := ERR_OK }).trace) :=
  ⟨rfl,
   (C12_close_order_abort_and_result { listening 10 with client_pcb := some 1 } 1
      { client := -1, server := ERR_OK } rfl).2.1,
   (C12_close_order_abort_and_result { listening 10 with client_pcb := some 1 } 1
      { client := -1, server := ERR_OK } rfl).2.2.1⟩

theorem recv_present_frame (s : TCP_SERVER_T) (tpcb : Pcb) (p : Pbuf) (err : Int)
    (rc : CloseRets) :
    (tcp_server_recv s tpcb (some p) err rc).ret = ERR_OK ∧
    (tcp_server_recv s tpcb (some p) err rc).state.client_pcb = s.client_pcb ∧
    (tcp_server_recv s tpcb (some p) err rc).state.server_pcb = s.server_pcb ∧
    (tcp_server_recv s tpcb (some p) err rc).state.complete = s.complete ∧
    (tcp_server_recv s tpcb (some p) err rc).state.sent_len = s.sent_len ∧
    (∀ h r, Cmd.tcp_close h r ∉ (tcp_server_recv s tpcb (some p) err rc).trace) ∧
    (∀ h, Cmd.tcp_abort h ∉ (tcp_server_recv s tpcb (some p) err rc).trace) := by
  simp only [tcp_server_recv]
  split
  · split <;> simp
  · simp

theorem result_abort (s : TCP_SERVER_T) (c : Pcb) (status : Int) (rc : CloseRets)
    (hc : s.client_pcb = some c) :
    (tcp_server_result s status rc).ret = (if rc.client ≠ ERR_OK then ERR_ABRT else ERR_OK) ∧
    (Cmd.tcp_abort c ∈ (tcp_server_result s status rc).trace ↔ rc.client ≠ ERR_OK) := by
  simp only [tcp_server_result]
  rw [close_with_client { s with complete := true } c rc hc]
  constructor
  · rfl
  · cases hsp : s.server_pcb <;> by_cases h : rc.client = ERR_OK <;> simp [h]

theorem abort_code_iff (k : Int) (P : Prop) (hk : P ↔ k ≠ ERR_OK) :
    ((if k ≠ ERR_OK then ERR_ABRT else ERR_OK) = ERR_ABRT ↔ P) ∧
    ((if k ≠ ERR_OK then ERR_ABRT else ERR_OK) = ERR_OK ↔ ¬ P) := by
  rw [hk]
  by_cases h : k = ERR_OK <;> simp [h, ERR_OK, ERR_ABRT]

/-- C18: in every state whose `client_pcb` is the callback's endpoint `tpcb`,
`tcp_server_recv` returns `ERR_ABRT` if and only if it issued `tcp_abort` on
`tpcb`, which happens exactly when the payload is absent and the graceful
`tcp_close` failed, and returns `ERR_OK` otherwise.  Likewise
`tcp_server_accept`, on a successful accept of endpoint `c` in any state,
returns `ERR_ABRT` if and only if it issued `tcp_abort` on `c`, which happens
exactly when the greeting write failed and the ensuing `tcp_close` failed, and
returns `ERR_OK` otherwise. -/
theorem C18_abort_reported_to_transport (state : TCP_SERVER_T) (tpcb : Pcb) (p : Option Pbuf)
    (err : Int) (rc : CloseRets) (hc : state.client_pcb = some tpcb) :
    ((tcp_server_recv state tpcb p err rc).ret = ERR_ABRT ↔
      Cmd.tcp_abort tpcb ∈ (tcp_server_recv state tpcb p err rc).trace) ∧
    (Cmd.tcp_abort tpcb ∈ (tcp_server_recv state tpcb p err rc).trace ↔
      p = none ∧ rc.client ≠ ERR_OK) ∧
    ((tcp_server_recv state tpcb p err rc).ret = ERR_OK ↔
      Cmd.tcp_abort tpcb ∉ (tcp_server_recv state tpcb p err rc).trace) ∧
    (∀ (s : TCP_SERVER_T) (c : Pcb) (write_ret : Int),
      ((tcp_server_accept s (some c) ERR_OK write_ret rc).ret = ERR_ABRT ↔
        Cmd.tcp_abort c ∈ (tcp_server_accept s (some c) ERR_OK write_ret rc).trace) ∧
      (Cmd.tcp_abort c ∈ (tcp_server_accept s (some c) ERR_OK write_ret rc).trace ↔
        write_ret ≠ ERR_OK ∧ rc.client ≠ ERR_OK) ∧
      ((tcp_server_accept s (some c) ERR_OK write_ret rc).ret = ERR_OK ↔
        Cmd.tcp_abort c ∉ (tcp_server_accept s (some c) ERR_OK write_ret rc).trace)) := by
  have hne : ERR_OK ≠ ERR_ABRT := by decide
  have hrecv : ((tcp_server_recv state tpcb p err rc).ret = ERR_ABRT ↔
        Cmd.tcp_abort tpcb ∈ (tcp_server_recv state tpcb p err rc).trace) ∧
      (Cmd.tcp_abort tpcb ∈ (tcp_server_recv state tpcb p err rc).trace ↔
        p = none ∧ rc.client ≠ ERR_OK) ∧
      ((tcp_server_recv state tpcb p err rc).ret = ERR_OK ↔
        Cmd.tcp_abort tpcb ∉ (tcp_server_recv state tpcb p err rc).trace) := by
    cases p with
    | none =>
      obtain ⟨h1, h2⟩ := result_abort state tpcb 0 rc hc
      obtain ⟨h3, h4⟩ := abort_code_iff rc.client _ h2
      rw [recv_absent_eq, h1]
      exact ⟨h3, by simpa using h2, h4⟩
    | some q =>
      obtain ⟨h1, _, _, _, _, _, h2⟩ := recv_present_frame state tpcb q err rc
      rw [h1]
      simp [h2 tpcb, hne]
  refine ⟨hrecv.1, hrecv.2.1, hrecv.2.2, ?_⟩
  intro s c write_ret
  by_cases hw : write_ret = ERR_OK
  · subst hw
    rw [accept_ok_eq]
    simp [hne]
  · have hmem : Cmd.tcp_abort c ∈ (tcp_server_accept s (some c) ERR_OK write_ret rc).trace ↔
        Cmd.tcp_abort c ∈
          (tcp_server_result { s with client_pcb := some c, sent_len := 0 } (-1) rc).trace := by
      rw [accept_write_failed_eq s c write_ret rc hw]
      simp
    obtain ⟨h1, h2⟩ := result_abort { s with client_pcb := some c, sent_len := 0 } c (-1) rc rfl
    obtain ⟨h3, h4⟩ := abort_code_iff rc.client _ h2
    have hret : (tcp_server_accept s (some c) ERR_OK write_ret rc).ret =
        (if rc.client ≠ ERR_OK then ERR_ABRT else ERR_OK) := by
      rw [accept_write_failed_eq s c write_ret rc hw]
      exact h1
    rw [hmem, hret]
    exact ⟨h3, by simpa [hw] using h2, h4⟩

/-- C18 at a concrete input: listener 10 and client 1 held, the payload absent
and the graceful close of the client failing with -1. -/
theorem C18_abort_reported_to_transport_witness :
    ({ listening 10 with client_pcb := some 1 } : TCP_SERVER_T).client_pcb = some 1 ∧
    ((tcp_server_recv { listening 10 with client_pcb := some 1 } 1 none ERR_OK
        { client := -1, server := ERR_OK }).ret = ERR_ABRT ↔
      Cmd.tcp_abort 1 ∈ (tcp_server_recv { listening 10 with client_pcb := some 1 } 1 none
        ERR_OK { client := -1, server := ERR_OK }).trace) ∧
    (Cmd.tcp_abort 1 ∈ (tcp_server_recv { listening 10 with client_pcb := some 1 } 1 none
        ERR_OK { client := -1, server := ERR_OK }).trace ↔
      (none : Option Pbuf) = none ∧ (-1 : Int) ≠ ERR_OK) :=
  ⟨rfl,
   (C18_abort_reported_to_transport { listening 10 with client_pcb := some 1 } 1 none ERR_OK
      { client := -1, server := ERR_OK } rfl).1,
   (C18_abort_reported_to_transport { listening 10 with client_pcb := some 1 } 1 none ERR_OK
      { client := -1, server := ERR_OK } rfl).2.1⟩

/-- C13: called on the fresh state of `tcp_server_init`, `tcp_server_open`
returns true if and only if `tcp_new_ip_type` yields an endpoint, `tcp_bind` to
port 4242 returns 0 and `tcp_listen_with_backlog` with backlog 1 yields a
listening handle; then `server_pcb` holds that handle, `tcp_server_accept` is
registered on it, `client_pcb` is NULL and `complete` is false.  When it
returns false, no `tcp_accept` was issued and `server_pcb` is NULL, and
`run_tcp_server` calls `tcp_server_result` with status -1, which logs
"error -1" and sets `complete`, and returns without running any event. -/
theorem C13_open_succeeds_iff_and_failure_path (t : OpenRets) (rc : CloseRets)
    (batches : List (List Event)) :
    tcp_server_init true = (some zeroed, []) ∧
    ((tcp_server_open zeroed t).2.2 = true ↔
      t.new_pcb ≠ none ∧ t.bind = 0 ∧ t.listen ≠ none) ∧
    (if (tcp_server_open zeroed t).2.2 = true then
      ∃ pcb l, t.new_pcb = some pcb ∧ t.listen = some l ∧
        (tcp_server_open zeroed t).2.1 =
          [Cmd.printf (LogLine.starting_server 4242), Cmd.tcp_new_ip_type (some pcb),
           Cmd.tcp_bind pcb 4242 0, Cmd.tcp_listen_with_backlog pcb 1 (some l),
           Cmd.tcp_arg l Arg.state, Cmd.tcp_accept l Callback.tcp_server_accept] ∧
        (tcp_server_open zeroed t).1.server_pcb = some l ∧
        (tcp_server_open zeroed t).1.client_pcb = none ∧
        (tcp_server_open zeroed t).1.complete = false
    else
      (tcp_server_open zeroed t).1.server_pcb = none ∧
      (∀ h cb, Cmd.tcp_accept h cb ∉ (tcp_server_open zeroed t).2.1) ∧
      (run_tcp_server true t rc batches).state =
        some (tcp_server_result (tcp_server_open zeroed t).1 (-1) rc).state ∧
      run_tcp_server true t rc batches =
        { state := some { zeroed with complete := true },
          trace := (tcp_server_open zeroed t).2.1 ++ [Cmd.printf (LogLine.error (-1))],
          returned := true, oob := false }) := by
  refine ⟨rfl, ?_, ?_⟩
  · rcases t with ⟨np, bd, ls, cl⟩
    cases np <;> cases ls <;> by_cases hb : bd = 0 <;> simp [tcp_server_open, hb]
  · rcases t with ⟨np, bd, ls, cl⟩
    cases np <;> cases ls <;> by_cases hb : bd = 0 <;>
      simp [tcp_server_open, run_tcp_server, tcp_server_init, tcp_server_result,
        tcp_server_close, zeroed, TCP_PORT, hb]

/-- C17: `tcp_server_err` is the spec's `onError`, which does not look at the
code: for every state, every error code `e` and all values returned by the
transport, `tcp_server_err` leaves the state of `tcp_server_result(arg, e)`
and issues its transport commands, whether or not `e` is `ERR_ABRT`; its trace
is one log line, whose wording alone depends on `e = ERR_ABRT`, followed by
the trace of `tcp_server_result(arg, e)`. -/
theorem C17_err_does_not_distinguish_abort (state : TCP_SERVER_T) (e : Int) (rc : CloseRets) :
    (tcp_server_err state e rc).state = (on_error_spec state e rc).state ∧
    transport_cmds (tcp_server_err state e rc).trace =
      transport_cmds (on_error_spec state e rc).trace ∧
    (tcp_server_err state e rc).trace =
      Cmd.printf (if e ≠ ERR_ABRT then LogLine.tcp_client_err_fn e
                  else LogLine.tcp_client_err_fn_abort e) ::
        (tcp_server_result state e rc).trace ∧
    (tcp_server_err state ERR_ABRT rc).state = (tcp_server_result state ERR_ABRT rc).state ∧
    transport_cmds (tcp_server_err state ERR_ABRT rc).trace =
      transport_cmds (tcp_server_result state ERR_ABRT rc).trace ∧
    (tcp_server_err state ERR_ABRT rc).trace =
      Cmd.printf (LogLine.tcp_client_err_fn_abort ERR_ABRT) ::
        (tcp_server_result state ERR_ABRT rc).trace := by
  have key : ∀ x : Int, (tcp_server_err state x rc).state = (tcp_server_result state x rc).state ∧
      (tcp_server_err state x rc).trace =
        Cmd.printf (if x ≠ ERR_ABRT then LogLine.tcp_client_err_fn x
                    else LogLine.tcp_client_err_fn_abort x) ::
          (tcp_server_result state x rc).trace := by
    intro x
    by_cases hx : x = ERR_ABRT <;> simp [tcp_server_err, hx]
  have htc : ∀ x : Int, transport_cmds (tcp_server_err state x rc).trace =
      transport_cmds (tcp_server_result state x rc).trace := by
    intro x
    rw [(key x).2]
    simp [transport_cmds]
  refine ⟨(key e).1, htc e, (key e).2, (key ERR_ABRT).1, htc ERR_ABRT, ?_⟩
  rw [(key ERR_ABRT).2]
  simp

theorem wrap32_of_fits (x : Int) (h : -2147483648 ≤ x ∧ x ≤ 2147483647) : wrap32 x = x := by
  unfold wrap32
  omega

/-- C15: `tcp_server_sent` (any acknowledged length), `tcp_server_poll`, and
`tcp_server_recv` with a present payload of 1 to 2047 bytes (in a state whose
`buffer_recv` has its `BUF_SIZE` bytes) each return `ERR_OK` and leave
`client_pcb`, `server_pcb` and `complete` as they were.  `tcp_server_sent`
changes only `sent_len`, by the `int` addition `sent_len += len`, which is the
sum itself whenever the sum fits an `int`; `tcp_server_poll` changes no field
and issues nothing but its log line; `tcp_server_recv` changes only
`buffer_recv`.  None of them issues `tcp_close` or `tcp_abort`. -/
theorem C15_nonterminal_events_frame (state : TCP_SERVER_T) (tpcb : Pcb) (len : Nat)
    (p : Pbuf) (err : Int) (rc : CloseRets) (hbuf : state.buffer_recv.length = BUF_SIZE)
    (h1 : 1 ≤ p.tot_len) (h2 : p.tot_len ≤ BUF_SIZE - 1) :
    ((tcp_server_sent state tpcb len).ret = ERR_OK ∧
     (tcp_server_sent state tpcb len).state =
       { state with sent_len := wrap32 (state.sent_len + len) } ∧
     (-2147483648 ≤ state.sent_len + len ∧ state.sent_len + len ≤ 2147483647 →
       (tcp_server_sent state tpcb len).state = { state with sent_len := state.sent_len + len }) ∧
     transport_cmds (tcp_server_sent state tpcb len).trace = []) ∧
    (tcp_server_poll state tpcb =
       { state := state, trace := [Cmd.printf LogLine.tcp_server_poll_fn], ret := ERR_OK,
         oob := false } ∧
     transport_cmds (tcp_server_poll state tpcb).trace = []) ∧
    ((tcp_server_recv state tpcb (some p) err rc).ret = ERR_OK ∧
     (tcp_server_recv state tpcb (some p) err rc).oob = false ∧
     (tcp_server_recv state tpcb (some p) err rc).state =
       { state with
         buffer_recv := (tcp_server_recv state tpcb (some p) err rc).state.buffer_recv } ∧
     (tcp_server_recv state tpcb (some p) err rc).state.client_pcb = state.client_pcb ∧
     (tcp_server_recv state tpcb (some p) err rc).state.server_pcb = state.server_pcb ∧
     (tcp_server_recv state tpcb (some p) err rc).state.complete = state.complete ∧
     (∀ h r, Cmd.tcp_close h r ∉ (tcp_server_recv state tpcb (some p) err rc).trace) ∧
     (∀ h, Cmd.tcp_abort h ∉ (tcp_server_recv state tpcb (some p) err rc).trace)) := by
  refine ⟨⟨rfl, rfl, ?_, ?_⟩, ⟨rfl, rfl⟩, ?_⟩
  · intro hfit
    simp only [tcp_server_sent, wrap32_of_fits _ hfit]
  · simp only [tcp_server_sent]
    split <;> rfl
  · have hlt : p.tot_len < state.buffer_recv.length := by
      rw [hbuf]
      have : 0 < BUF_SIZE := by decide
      omega
    obtain ⟨f1, f2, f3, f4, _, f6, f7⟩ := recv_present_frame state tpcb p err rc
    refine ⟨f1, ?_, ?_, f2, f3, f4, f6, f7⟩
    · rw [recv_payload_eq state tpcb p err rc (by omega) hlt]
    · rw [recv_payload_eq state tpcb p err rc (by omega) hlt]

/-- C15 at a concrete input: listener 10 and client 1 held, the payload "ping",
6 bytes acknowledged. -/
theorem C15_nonterminal_events_frame_witness :
    ({ listening 10 with client_pcb := some 1 } : TCP_SERVER_T).buffer_recv.length = BUF_SIZE ∧
    1 ≤ Pbuf.tot_len { id := 7, payload := [112, 105, 110, 103] } ∧
    Pbuf.tot_len { id := 7, payload := [112, 105, 110, 103] } ≤ BUF_SIZE - 1 ∧
    (tcp_server_sent { listening 10 with client_pcb := some 1 } 1 6).state =
      { listening 10 with client_pcb := some 1, sent_len := wrap32 (0 + (6 : Nat)) } ∧
    (tcp_server_recv { listening 10 with client_pcb := some 1 } 1
      (some { id := 7, payload := [112, 105, 110, 103] }) 0
      { client := 0, server := 0 }).state.complete = false :=
  ⟨List.length_replicate _ _, by decide, by decide,
   (C15_nonterminal_events_frame { listening 10 with client_pcb := some 1 } 1 6
      { id := 7, payload := [112, 105, 110, 103] } 0 { client := 0, server := 0 }
      (List.length_replicate _ _) (by decide) (by decide)).1.2.1,
   (C15_nonterminal_events_frame { listening 10 with client_pcb := some 1 } 1 6
      { id := 7, payload := [112, 105, 110, 103] } 0 { client := 0, server := 0 }
      (List.length_replicate _ _) (by decide) (by decide)).2.2.2.2.2.2.2.1⟩

/-- C16: for every call of `tcp_server_recv` with a payload handle (`p` not
NULL), whatever the payload's length, zero, up to 2047 bytes, or more than
`buffer_recv` can take: the trace holds exactly one `pbuf_free`, it is on `p`
and it is the last command of the call, issued after `pbuf_copy_partial` and
`tcp_recved` when the length is not zero. -/
theorem C16_payload_freed_exactly_once (state : TCP_SERVER_T) (tpcb : Pcb) (p : Pbuf)
    (err : Int) (rc : CloseRets) :
    frees (tcp_server_recv state tpcb (some p) err rc).trace = [Cmd.pbuf_free p.id] ∧
    (tcp_server_recv state tpcb (some p) err rc).trace.getLast? = some (Cmd.pbuf_free p.id) ∧
    ∃ pre, (tcp_server_recv state tpcb (some p) err rc).trace = pre ++ [Cmd.pbuf_free p.id] ∧
      frees pre = [] ∧
      (if 0 < p.tot_len then
        Cmd.pbuf_copy_partial p.id p.tot_len 0 ∈ pre ∧ Cmd.tcp_recved tpcb p.tot_len ∈ pre
       else pre = [Cmd.cyw43_arch_lwip_check]) := by
  by_cases h0 : 0 < p.tot_len
  · cases hst : (store_bytes state.buffer_recv 0 ( pbuf_copy_partial p p.tot_len 0)).bind
        (fun b => store_byte b p.tot_len 0) with
    | none =>
      refine ⟨?_, ?_, [Cmd.cyw43_arch_lwip_check,
        Cmd.printf (LogLine.tcp_server_recv p.tot_len err),
        Cmd.pbuf_copy_partial p.id p.tot_len 0,
        Cmd.printf (LogLine.text (c_string (( pbuf_copy_partial p p.tot_len 0) ++ [0]))),
        Cmd.tcp_recved tpcb p.tot_len], ?_, ?_, ?_⟩ <;>
        simp [tcp_server_recv, h0, hst, frees]
    | some buf =>
      refine ⟨?_, ?_, [Cmd.cyw43_arch_lwip_check,
        Cmd.printf (LogLine.tcp_server_recv p.tot_len err),
        Cmd.pbuf_copy_partial p.id p.tot_len 0, Cmd.printf (LogLine.text (c_string buf)),
        Cmd.tcp_recved tpcb p.tot_len], ?_, ?_, ?_⟩ <;>
        simp [tcp_server_recv, h0, hst, frees]
  · refine ⟨?_, ?_, [Cmd.cyw43_arch_lwip_check], ?_, ?_, ?_⟩ <;>
      simp [tcp_server_recv, h0, frees]

theorem send_data_state (s : TCP_SERVER_T) (tpcb : Pcb) (w : Int) (rc : CloseRets) :
    (tcp_server_send_data s tpcb w rc).state =
      if w ≠ ERR_OK then (tcp_server_result { s with sent_len := 0 } (-1) rc).state
      else { s with sent_len := 0 } := by
  by_cases hw : w = ERR_OK <;> simp [tcp_server_send_data, hw]

theorem accept_state (s : TCP_SERVER_T) (cp : Option Pcb) (err w : Int) (rc : CloseRets) :
    (tcp_server_accept s cp err w rc).state =
      match cp with
      | some c =>
        if err ≠ ERR_OK then (tcp_server_result s err rc).state
        else (tcp_server_send_data { s with client_pcb := some c } c w rc).state
      | none => (tcp_server_result s err rc).state := by
  cases cp with
  | none => rfl
  | some c => by_cases he : err = ERR_OK <;> simp [tcp_server_accept, he]

theorem err_state (s : TCP_SERVER_T) (err : Int) (rc : CloseRets) :
    (tcp_server_err s err rc).state = (tcp_server_result s err rc).state := by
  by_cases he : err = ERR_ABRT <;> simp [tcp_server_err, he]

theorem deliver_complete_mono (s : TCP_SERVER_T) (e : Event) (h : s.complete = true) :
    (deliver s e).state.complete = true := by
  cases e with
  | accept cp err w rc =>
    simp only [deliver, accept_state]
    cases cp with
    | none => exact (result_terminal s err rc).1
    | some c =>
      by_cases he : err = ERR_OK
      · by_cases hw : w = ERR_OK
        · simpa [he, hw, send_data_state] using h
        · simpa [he, hw, send_data_state] using (result_terminal _ (-1) rc).1
      · simpa [he] using (result_terminal s err rc).1
  | sent tpcb len => exact h
  | recv tpcb p err rc =>
    cases p with
    | none => exact (result_terminal s 0 rc).1
    | some q =>
      simp only [deliver]
      rw [(recv_present_frame s tpcb q err rc).2.2.2.1]
      exact h
  | poll tpcb => exact h
  | err err rc =>
    simp only [deliver, err_state]
    exact (result_terminal s err rc).1

theorem run_complete_mono (es : List Event) :
    ∀ s : TCP_SERVER_T, s.complete = true → (run_events s es).state.complete = true := by
  induction es with
  | nil =>
    intro s h
    exact h
  | cons e es ih =>
    intro s h
    have h1 := deliver_complete_mono s e h
    simpa [run_events] using ih _ h1

theorem deliver_done_released (s : TCP_SERVER_T) (e : Event)
    (hinv : s.complete = true → s.client_pcb = none ∧ s.server_pcb = none)
    (hacc : (match e with
             | Event.accept _ _ _ _ => s.server_pcb.isSome
             | _ => true) = true) :
    (deliver s e).state.complete = true →
      (deliver s e).state.client_pcb = none ∧ (deliver s e).state.server_pcb = none := by
  cases e with
  | accept cp err w rc =>
    simp only at hacc
    have hnd : s.complete = false := by
      cases hcm : s.complete with
      | false => rfl
      | true =>
        rw [(hinv hcm).2] at hacc
        cases hacc
    simp only [deliver, accept_state]
    cases cp with
    | none => exact fun _ => (result_terminal s err rc).2
    | some c =>
      by_cases he : err = ERR_OK
      · by_cases hw : w = ERR_OK
        · simp [he, hw, send_data_state, hnd]
        · simpa [he, hw, send_data_state] using fun _ => (result_terminal _ (-1) rc).2
      · simpa [he] using fun _ => (result_terminal s err rc).2
  | sent tpcb len => exact hinv
  | recv tpcb p err rc =>
    cases p with
    | none => exact fun _ => (result_terminal s 0 rc).2
    | some q =>
      obtain ⟨_, f2, f3, f4, _⟩ := recv_present_frame s tpcb q err rc
      simp only [deliver]
      rw [f2, f3, f4]
      exact hinv
  | poll tpcb => exact hinv
  | err err rc =>
    simp only [deliver, err_state]
    exact fun _ => (result_terminal s err rc).2

theorem run_done_released (es : List Event) :
    ∀ s : TCP_SERVER_T, (s.complete = true → s.client_pcb = none ∧ s.server_pcb = none) →
      accepts_while_listening s es = true →
      (run_events s es).state.complete = true →
        (run_events s es).state.client_pcb = none ∧ (run_events s es).state.server_pcb = none := by
  induction es with
  | nil =>
    intro s hinv _
    exact hinv
  | cons e es ih =>
    intro s hinv hacc
    simp only [accepts_while_listening, Bool.and_eq_true] at hacc
    have h1 := deliver_done_released s e hinv hacc.1
    simpa [run_events] using ih _ h1 hacc.2

/-- C14: a lifecycle starts with `complete` false (`tcp_server_init`, and
`tcp_server_open` leaves it so).  `tcp_server_close`, `tcp_server_sent`,
`tcp_server_poll` and `tcp_server_recv` with a present payload leave `complete`
as it was; `tcp_server_result` sets it; `tcp_server_recv` with an absent
payload, `tcp_server_err`, `tcp_server_send_data` and `tcp_server_accept` either
leave the state of a `tcp_server_result` call or (greeting written) leave
`complete` as it was.  Hence no callback and no sequence of callbacks turns
`complete` from true to false.  In every state reached from a successful open
by events, the accepts among them arriving while the listener is held,
`complete` true implies that `client_pcb` and `server_pcb` are both NULL. -/
theorem C14_complete_monotone_and_terminal (l : Pcb) (evs : List Event)
    (hacc : accepts_while_listening (listening l) evs = true) :
    (zeroed.complete = false ∧ (listening l).complete = false) ∧
    ((∀ (s : TCP_SERVER_T) (rc : CloseRets), (tcp_server_close s rc).state.complete = s.complete) ∧
     (∀ (s : TCP_SERVER_T) (status : Int) (rc : CloseRets),
       (tcp_server_result s status rc).state.complete = true) ∧
     (∀ (s : TCP_SERVER_T) (tpcb : Pcb) (len : Nat),
       (tcp_server_sent s tpcb len).state.complete = s.complete) ∧
     (∀ (s : TCP_SERVER_T) (tpcb : Pcb), (tcp_server_poll s tpcb).state.complete = s.complete) ∧
     (∀ (s : TCP_SERVER_T) (tpcb : Pcb) (p : Pbuf) (err : Int) (rc : CloseRets),
       (tcp_server_recv s tpcb (some p) err rc).state.complete = s.complete) ∧
     (∀ (s : TCP_SERVER_T) (tpcb : Pcb) (err : Int) (rc : CloseRets),
       tcp_server_recv s tpcb none err rc = tcp_server_result s 0 rc) ∧
     (∀ (s : TCP_SERVER_T) (err : Int) (rc : CloseRets),
       (tcp_server_err s err rc).state = (tcp_server_result s err rc).state) ∧
     (∀ (s : TCP_SERVER_T) (tpcb : Pcb) (w : Int) (rc : CloseRets),
       (tcp_server_send_data s tpcb w rc).state =
         if w ≠ ERR_OK then (tcp_server_result { s with sent_len := 0 } (-1) rc).state
         else { s with sent_len := 0 }) ∧
     (∀ (s : TCP_SERVER_T) (cp : Option Pcb) (err w : Int) (rc : CloseRets),
       (tcp_server_accept s cp err w rc).state =
         match cp with
         | some c =>
           if err ≠ ERR_OK then (tcp_server_result s err rc).state
           else (tcp_server_send_data { s with client_pcb := some c } c w rc).state
         | none => (tcp_server_result s err rc).state)) ∧
    ((∀ (s : TCP_SERVER_T) (e : Event), s.complete = true →
       (deliver s e).state.complete = true) ∧
     (∀ (s : TCP_SERVER_T) (es : List Event), s.complete = true →
       (run_events s es).state.complete = true)) ∧
    ((run_events (listening l) evs).state.complete = true →
      (run_events (listening l) evs).state.client_pcb = none ∧
      (run_events (listening l) evs).state.server_pcb = none) := by
  refine ⟨⟨rfl, rfl⟩,
    ⟨close_complete, fun s status rc => (result_terminal s status rc).1, fun _ _ _ => rfl,
     fun _ _ => rfl, fun s tpcb p err rc => (recv_present_frame s tpcb p err rc).2.2.2.1,
     fun _ _ _ _ => rfl, err_state, send_data_state, accept_state⟩,
    ⟨deliver_complete_mono, fun s es => run_complete_mono es s⟩, ?_⟩
  exact run_done_released evs (listening l) (fun h => by cases h) hacc

theorem greeted_session_accepts (b : List Nat) :
    accepts_while_listening
      (⟨some 10, none, false, b, 0⟩ : TCP_SERVER_T) greeted_session = true := by
  have hsent : to_size_t (wrap32 (0 + 6)) ≥ strlen hello := by decide
  have h2 : ¬ ((-14 : Int) = ERR_ABRT) := by decide
  simp [accepts_while_listening, greeted_session, deliver, accept_ok_eq, tcp_server_sent,
    tcp_server_poll, recv_absent_eq, tcp_server_result, tcp_server_close, tcp_server_err,
    hsent, h2]

theorem greeted_session_completes (b : List Nat) :
    (run_events (⟨some 10, none, false, b, 0⟩ : TCP_SERVER_T) greeted_session).state.complete
      = true := by
  have hsent : to_size_t (wrap32 (0 + 6)) ≥ strlen hello := by decide
  have h2 : ¬ ((-14 : Int) = ERR_ABRT) := by decide
  simp [run_events, greeted_session, deliver, accept_ok_eq, tcp_server_sent,
    tcp_server_poll, recv_absent_eq, tcp_server_result, tcp_server_close, tcp_server_err,
    hsent, h2]

/-- C14 at a concrete input: listener 10 opened, then the events of
`greeted_session`; the run ends with `complete` true and both handles NULL. -/
theorem C14_complete_monotone_and_terminal_witness :
    accepts_while_listening (listening 10) greeted_session = true ∧
    (run_events (listening 10) greeted_session).state.complete = true ∧
    ((run_events (listening 10) greeted_session).state.complete = true →
      (run_events (listening 10) greeted_session).state.client_pcb = none ∧
      (run_events (listening 10) greeted_session).state.server_pcb = none) :=
  ⟨greeted_session_accepts _, greeted_session_completes _,
   (C14_complete_monotone_and_terminal 10 greeted_session
      (greeted_session_accepts _)).2.2.2⟩

end Picowota
